import Mathlib

/-
Verification of the rusterators coroutine and generator library.

The library moves typed values between two call stacks over a one-word
context-switch channel.  The shallow embedding below models:

- the value-exchange layer (ValueExchangeContainer, ExchangingTransfer)
  from src/transfer.rs and the transfer module of src/coroutines.rs,
  with the raw stack switch abstracted as an oracle describing what the
  peer did while this side was suspended (the word passed back, the
  peer-side memory of exchange containers, and the content the peer
  wrote into the own receive slot);
- the invoker-side coroutine state machine (Coroutine, InvocationState,
  InvocationChannel) from the execution module of src/coroutines.rs,
  with the routine side modelled as a script: the list of SuspenseType
  replies the routine sends back, one consumed per resume;
- the bootstrap trampoline run_co_context, modelled by the disposal
  value it computes from the first resume message and the outcome of
  the user routine;
- the BoostedGenerator facade from src/generators.rs on top of the
  script-driven coroutine;
- the SelfUpdating cell from src/utils.rs.

Rust panics are modelled as Except errors: a panic with a message is
Except.error of that message (or of PanicData.internalMsg in the
execution layer), and resume_unwind of a caught payload re-raises that
payload.  A propagated error has no successor state, which models that
the computation on that side terminates.
-/

namespace Rusterators

/-- Payload of a Rust unwind: either an opaque user payload of type P,
    or the payload of a library panic with a message string. -/
inductive PanicData (P : Type) where
  | user (p : P)
  | internalMsg (s : String)

/-! ## Value exchange layer (src/transfer.rs, src/coroutines.rs mod transfer) -/

/-- Two-state slot holding at most one value, enum ValueExchangeContainer. -/
inductive ValueExchangeContainer (V : Type) where
  | Value (v : V)
  | Empty

namespace ValueExchangeContainer

/-- fn prepare_exchange(val: V) -> Self: wrap a value. -/
def prepare_exchange (v : V) : ValueExchangeContainer V := .Value v

/-- fn has_content(&self) -> bool. -/
def has_content (c : ValueExchangeContainer V) : Bool :=
  match c with
  | .Value _ => true
  | .Empty => false

/-- fn receive_content(&mut self) -> V: std::mem::take leaves Empty behind;
    the Value case returns the value and the emptied container, the Empty
    case panics.  Modelled as returning the value together with the
    container state after the call. -/
def receive_content (c : ValueExchangeContainer V) :
    Except String (V × ValueExchangeContainer V) :=
  match c with
  | .Value v => .ok (v, .Empty)
  | .Empty => .error ("No content to receive")

/-- fn make_pointer(&self) -> usize in src/coroutines.rs lines 46-48 and
    src/transfer.rs lines 73-75: transmutes the self address to usize with
    no inspection of the container state.  The address is extrinsic to the
    value, so it is passed as a ghost parameter; the function is total. -/
def make_pointer (addr : Nat) (_c : ValueExchangeContainer V) : Except String Nat :=
  .ok addr

end ValueExchangeContainer

namespace ExchangeDraft

/-- fn make_pointer(&self) -> usize in the draft src/exchange.rs lines
    40-46: panics when the container is Empty, returns the address when
    it is Full. -/
def make_pointer (addr : Nat) (c : ValueExchangeContainer V) : Except String Nat :=
  if c.has_content then .ok addr
  else .error ("pointer for empty exchange are forbidden")

end ExchangeDraft

/-- struct ExchangingTransfer: the raw context word seen after the last
    switch (pointer_transfer.data), the optional address the send
    reference points at (send_ref, an ExchangeContainerRef modelled by
    the address of its target), and the own receive slot. -/
structure ExchangingTransfer (S R : Type) where
  transferData : Nat
  sendRef : Option Nat
  receiveContainer : ValueExchangeContainer R

/-- Oracle describing one raw stack switch from the point of view of the
    side that suspended: data is the machine word the peer passed when it
    resumed us, peerMem gives the exchange container found at each
    peer-side address at that moment, and rxAfter is the state of the own
    receive container after the peer ran (the peer writes into it through
    the pointer we passed). -/
structure SwitchResult (S R : Type) where
  data : Nat
  peerMem : Nat → ValueExchangeContainer S
  rxAfter : ValueExchangeContainer R

namespace ExchangingTransfer

/-- fn suspend(&mut self) -> Receive, src/coroutines.rs lines 143-152 and
    src/transfer.rs lines 198-210.  After the switch returns with word w:
    if w is nonzero, the existing send reference is rebound to the
    container at w via receive_ref (which panics when its current target
    is not Empty), or a fresh reference to w is installed when send_ref
    was None; if w is zero, send_ref is set to None.  Then the own
    receive container is drained by receive_content and its value
    returned. -/
def suspend (t : ExchangingTransfer S R) (sw : SwitchResult S R) :
    Except String (R × ExchangingTransfer S R) :=
  let w := sw.data
  let refStep : Except String (Option Nat) :=
    if w ≠ 0 then
      match t.sendRef with
      | some a =>
        match sw.peerMem a with
        | .Empty => .ok (some w)
        | .Value _ => .error ("tried to forget nonm-empty container ref")
      | none => .ok (some w)
    else .ok none
  match refStep with
  | .error e => .error e
  | .ok newRef =>
    match sw.rxAfter.receive_content with
    | .ok (v, _) =>
      .ok (v, { transferData := w, sendRef := newRef, receiveContainer := .Empty })
    | .error e => .error e

/-- fn send(&mut self, val: Send): writes val into the peer container the
    send reference points at; panics when no send reference is installed,
    or (in ExchangeContainerRef.send_value) when the target is not Empty.
    Returns the updated peer-side memory. -/
def send (t : ExchangingTransfer S R) (peerMem : Nat → ValueExchangeContainer S)
    (val : S) : Except String (Nat → ValueExchangeContainer S) :=
  match t.sendRef with
  | none => .error ("invalid exchange state for sending")
  | some a =>
    match peerMem a with
    | .Value _ => .error ("tried to write to non-empty container")
    | .Empty => .ok (fun x => if x = a then .Value val else peerMem x)

/-- fn yield_with(&mut self, val: Send) -> Receive: send then suspend. -/
def yield_with (t : ExchangingTransfer S R)
    (peerMemPre : Nat → ValueExchangeContainer S) (val : S)
    (sw : SwitchResult S R) : Except String (R × ExchangingTransfer S R) :=
  match t.send peerMemPre val with
  | .error e => .error e
  | .ok _ => t.suspend sw

end ExchangingTransfer

/-! ## SelfUpdating cell (src/utils.rs) -/

/-- pub struct SelfUpdating<T>(Option<T>). -/
structure SelfUpdating (T : Type) where
  val : Option T

namespace SelfUpdating

/-- pub fn of(initial: T) -> Self. -/
def of (v : T) : SelfUpdating T := ⟨some v⟩

/-- pub fn update(&mut self, op): self.0 = Some(op(self.0.take().unwrap())).
    The closure op is modelled as fallible so that a panic inside op can be
    traced: when op raises, the error propagates out of update and no
    successor cell state is produced. -/
def update (c : SelfUpdating T) (op : T → Except String T) :
    Except String (SelfUpdating T) :=
  match c.val with
  | none => .error ("called unwrap on empty cell")
  | some t =>
    match op t with
    | .ok t2 => .ok ⟨some t2⟩
    | .error e => .error e

/-- Deref::deref: self.0.as_ref().unwrap(). -/
def deref (c : SelfUpdating T) : Except String T :=
  match c.val with
  | some t => .ok t
  | none => .error ("called unwrap on empty cell")

/-- DerefMut::deref_mut: self.0.as_mut().unwrap(). -/
def deref_mut (c : SelfUpdating T) : Except String T :=
  match c.val with
  | some t => .ok t
  | none => .error ("called unwrap on empty cell")

/-- pub fn unwrap(mut self) -> T: self.0.take().unwrap(). -/
def unwrap (c : SelfUpdating T) : Except String T :=
  match c.val with
  | some t => .ok t
  | none => .error ("called unwrap on empty cell")

/-- States of the cell reachable through the public API: construction by
    of, and every update whose closure returned normally. -/
inductive Reachable {T : Type} : SelfUpdating T → Prop where
  | of (v : T) : Reachable (SelfUpdating.of v)
  | update (c : SelfUpdating T) (op : T → Except String T) (c2 : SelfUpdating T) :
      Reachable c → SelfUpdating.update c op = .ok c2 → Reachable c2

end SelfUpdating

/-! ## Coroutine execution layer (src/coroutines.rs mod execution) -/

/-- enum UnwindReason: Panic(PanicData) | Drop. -/
inductive UnwindReason (P : Type) where
  | Panic (d : PanicData P)
  | Drop

/-- enum CompleteType<Return>: Return(Return) | Unwind(UnwindReason). -/
inductive CompleteType (R P : Type) where
  | Return (r : R)
  | Unwind (u : UnwindReason P)

/-- enum SuspenseType<Yield, Return>: Yield(Yield) | Complete(CompleteType). -/
inductive SuspenseType (Y R P : Type) where
  | Yield (y : Y)
  | Complete (c : CompleteType R P)

/-- enum ResumeType<Receive>: Yield(Receive) | Drop(). -/
inductive ResumeType (Rx : Type) where
  | Yield (v : Rx)
  | Drop

/-- enum ResumeResult<Yield, Return>: Yield(Yield) | Return(Return). -/
inductive ResumeResult (Y R : Type) where
  | Yield (y : Y)
  | Return (r : R)

/-- enum CompleteVariant: Return | Unwind. -/
inductive CompleteVariant where
  | Return
  | Unwind

/-- enum InvocationState: Running(InvocationChannel, Stack) | Completed.
    The routine behind the channel is modelled as a script: the list of
    SuspenseType replies it will send back, one per resume; the stack
    object carries no observable data and is elided. -/
inductive InvocationState (Y R P : Type) where
  | Running (script : List (SuspenseType Y R P))
  | Completed (v : CompleteVariant)

/-- pub struct Coroutine { state: InvocationState }.  Rx is the phantom
    receive type of the handle. -/
structure Coroutine (Y R Rx P : Type) where
  state : InvocationState Y R P

namespace Coroutine

/-- pub fn is_completed(&self) -> bool. -/
def is_completed (c : Coroutine Y R Rx P) : Bool :=
  match c.state with
  | .Completed _ => true
  | _ => false

/-- fn receive(&mut self, rec: SuspenseType) -> ResumeResult,
    src/coroutines.rs lines 403-423: Yield is passed through with the
    state untouched; Complete(Return) moves the state to
    Completed(Return) and returns Return; Complete(Unwind) moves the
    state to Completed(Unwind) and then re-raises the payload in the
    Panic case (resume_unwind) or panics with a message in the Drop
    case.  Returns the updated coroutine and the outcome. -/
def receive (c : Coroutine Y R Rx P) (rec : SuspenseType Y R P) :
    Coroutine Y R Rx P × Except (PanicData P) (ResumeResult Y R) :=
  match rec with
  | .Yield y => (c, .ok (.Yield y))
  | .Complete (.Return r) => (⟨.Completed .Return⟩, .ok (.Return r))
  | .Complete (.Unwind (.Panic d)) => (⟨.Completed .Unwind⟩, .error d)
  | .Complete (.Unwind .Drop) =>
    (⟨.Completed .Unwind⟩,
     .error (.internalMsg ("coroutine context dropped outside of coroutine constructor")))

/-- pub fn resume(&mut self, send: Receive) -> ResumeResult,
    src/coroutines.rs lines 388-394: in Running the channel suspends with
    the sent value and blocks until the routine replies, modelled by
    consuming the head of the script (an empty script cannot arise from a
    well-formed routine and is reported as a modelling artifact); in
    Completed it panics before any context switch. -/
def resume (c : Coroutine Y R Rx P) (_send : Rx) :
    Coroutine Y R Rx P × Except (PanicData P) (ResumeResult Y R) :=
  match c.state with
  | .Running (rec :: rest) => receive ⟨.Running rest⟩ rec
  | .Running [] => (c, .error (.internalMsg ("coroutine script exhausted")))
  | .Completed _ => (c, .error (.internalMsg ("tried to send to completed context")))

end Coroutine

namespace InvocationChannel

/-- pub fn unwind(&mut self), src/coroutines.rs lines 457-462: sends
    ResumeType::Drop through yield_with and matches the reply; a
    Complete(Unwind(_)) reply of any unwind reason is accepted, every
    other reply panics.  The reply delivered by the blocking switch is a
    parameter. -/
def unwind (reply : SuspenseType Y R P) : Except (PanicData P) Unit :=
  match reply with
  | .Complete (.Unwind _) => .ok ()
  | _ => .error (.internalMsg ("Invalid coroutine unwind result"))

end InvocationChannel

namespace Coroutine

/-- impl Drop for Coroutine, src/coroutines.rs lines 373-382: when the
    state is Running the destructor runs channel.unwind() on the reply
    the routine sends back to the Drop message; otherwise it does
    nothing. -/
def drop (c : Coroutine Y R Rx P) (reply : SuspenseType Y R P) :
    Except (PanicData P) Unit :=
  match c.state with
  | .Running _ => InvocationChannel.unwind reply
  | .Completed _ => .ok ()

end Coroutine

namespace CoroutineChannel

/-- fn receive(&mut self, r: ResumeType) -> Receive, src/coroutines.rs
    lines 436-444: a Yield passes the value through leaving the drop flag
    (field .1 of CoroutineChannel) unchanged; a Drop sets the flag to
    true and panics with an empty payload.  Returns the new flag and the
    outcome. -/
def receive (flag : Bool) (r : ResumeType Rx) :
    Bool × Except (PanicData P) Rx :=
  match r with
  | .Yield y => (flag, .ok y)
  | .Drop => (true, .error (.internalMsg ("")))

end CoroutineChannel

/-- Outcome of running the user routine under the unwind guard once it
    has been handed its first receive value: it either returns r, or a
    raise escapes it carrying payload d, with flagAfter recording whether
    the drop flag of the channel was set during the run (a Drop received
    at some later suspension sets it immediately before raising). -/
inductive RoutineRun (R P : Type) where
  | ok (r : R)
  | panics (flagAfter : Bool) (d : PanicData P)

/-- extern fn run_co_context, src/coroutines.rs lines 464-477, after its
    initial construction-time suspend: the first resume message is fed to
    channel.receive with the drop flag initially false inside the
    catch_unwind guard; when receive yields a value the routine function
    runs on it; the guard result is disposed as Complete(Return r) on
    normal return, and on a caught raise as Complete(Unwind(Drop)) when
    the drop flag is set, else Complete(Unwind(Panic payload)).  The
    value passed to dispose_with is returned. -/
def run_co_context_disposal (routine : Rx → RoutineRun R P)
    (first : ResumeType Rx) : SuspenseType Y R P :=
  match @CoroutineChannel.receive Rx P false first with
  | (flag, .error d) => .Complete (.Unwind (if flag then .Drop else .Panic d))
  | (_, .ok v) =>
    match routine v with
    | .ok r => .Complete (.Return r)
    | .panics flagAfter d => .Complete (.Unwind (if flagAfter then .Drop else .Panic d))

/-! ## Generator facade (src/generators.rs) -/

/-- enum BoostedGeneratorState: RUNNING(Coroutine) | COMPLETED(Return). -/
inductive BoostedGeneratorState (Y R Rx P : Type) where
  | RUNNING (co : Coroutine Y R Rx P)
  | COMPLETED (r : R)

/-- pub struct BoostedGenerator(BoostedGeneratorState). -/
structure BoostedGenerator (Y R Rx P : Type) where
  state : BoostedGeneratorState Y R Rx P

namespace BoostedGenerator

/-- fn resume(&mut self, send) -> Option<Yield>, src/generators.rs lines
    173-185: in COMPLETED it panics; in RUNNING it resumes the coroutine
    and maps Return(r) to caching r in COMPLETED and returning None,
    Yield(v) to Some(v); a panic from the coroutine propagates with the
    state left RUNNING on the updated coroutine. -/
def resume (g : BoostedGenerator Y R Rx P) (send : Rx) :
    BoostedGenerator Y R Rx P × Except (PanicData P) (Option Y) :=
  match g.state with
  | .COMPLETED _ => (g, .error (.internalMsg ("invalid generator state")))
  | .RUNNING co =>
    match Coroutine.resume co send with
    | (_, .ok (.Return r)) => (⟨.COMPLETED r⟩, .ok none)
    | (co2, .ok (.Yield v)) => (⟨.RUNNING co2⟩, .ok (some v))
    | (co2, .error e) => (⟨.RUNNING co2⟩, .error e)

/-- fn has_completed(&self) -> bool, src/generators.rs lines 164-171. -/
def has_completed (g : BoostedGenerator Y R Rx P) : Bool :=
  match g.state with
  | .COMPLETED _ => true
  | .RUNNING co => co.is_completed

/-- fn result(self) -> Result<Ret, ()>, src/generators.rs lines 149-158:
    panics when the generator has not completed; otherwise COMPLETED(r)
    gives Ok(r) and a RUNNING-but-completed coroutine gives Err(()). -/
def result (g : BoostedGenerator Y R Rx P) :
    Except (PanicData P) (Except Unit R) :=
  if g.has_completed then
    match g.state with
    | .COMPLETED r => .ok (.ok r)
    | .RUNNING _ => .ok (.error ())
  else .error (.internalMsg ("generator has not completed yet"))

/-- Iterator::next for BoostedGenerator, src/generators.rs lines 203-205,
    is resume(()); runIter performs fuel such next calls, collecting the
    returned options in order and stopping at the first panic. -/
def runIter (g : BoostedGenerator Y R Unit P) :
    Nat → Except (PanicData P) (List (Option Y) × BoostedGenerator Y R Unit P)
  | 0 => .ok ([], g)
  | n + 1 =>
    match resume g () with
    | (g2, .ok o) =>
      match runIter g2 n with
      | .ok (os, g3) => .ok (o :: os, g3)
      | .error e => .error e
    | (_, .error e) => .error e

end BoostedGenerator

/-- The reply script of a routine that yields the values ys in order and
    then returns r: each yield travels as SuspenseType.Yield and the
    return as the disposal value Complete(Return r). -/
def scriptOfYields (ys : List Y) (r : R) : List (SuspenseType Y R P) :=
  ys.map .Yield ++ [.Complete (.Return r)]

/-- A BoostedGenerator freshly built over a coroutine whose routine
    yields ys and returns r. -/
def genOfScript (ys : List Y) (r : R) : BoostedGenerator Y R Unit P :=
  ⟨.RUNNING ⟨.Running (scriptOfYields ys r)⟩⟩

/-- Helper for C1: one next call on a generator whose script starts with
    a yield emits some y and continues on the remaining script. -/
theorem runIter_cons_yield {Y R P : Type} (y : Y)
    (rest : List (SuspenseType Y R P)) (n : Nat) :
    BoostedGenerator.runIter
        (⟨.RUNNING ⟨.Running (.Yield y :: rest)⟩⟩ : BoostedGenerator Y R Unit P)
        (n + 1)
      = match BoostedGenerator.runIter
            (⟨.RUNNING ⟨.Running rest⟩⟩ : BoostedGenerator Y R Unit P) n with
        | .ok (os, g3) => .ok (some y :: os, g3)
        | .error e => .error e := rfl

/-- Helper for C1: iterating a generator over the script of ys then
    return r for length ys + 1 steps yields the options of ys followed
    by none and leaves the cached return in COMPLETED. -/
theorem runIter_scriptOfYields {Y R P : Type} (ys : List Y) (r : R) :
    BoostedGenerator.runIter (genOfScript ys r : BoostedGenerator Y R Unit P)
        (ys.length + 1)
      = .ok (ys.map some ++ [none], ⟨.COMPLETED r⟩) := by
  induction ys with
  | nil => rfl
  | cons y t ih =>
    simp only [genOfScript, scriptOfYields] at ih ⊢
    simp only [List.map_cons, List.cons_append, List.length_cons]
    rw [runIter_cons_yield, ih]

/-- C1: for every generator whose routine yields the finite sequence ys
    and then returns r, iterating it to exhaustion (length ys + 1 next
    calls, next being resume of unit) produces exactly some y1, ...,
    some yn, none in order, and result() on the resulting generator
    returns Ok(r). -/
theorem c1_generator_exhaustion {Y R P : Type} (ys : List Y) (r : R) :
    BoostedGenerator.runIter (genOfScript ys r : BoostedGenerator Y R Unit P)
        (ys.length + 1)
      = .ok (ys.map some ++ [none], ⟨.COMPLETED r⟩) ∧
    BoostedGenerator.result (⟨.COMPLETED r⟩ : BoostedGenerator Y R Unit P)
      = .ok (.ok r) :=
  ⟨runIter_scriptOfYields ys r, rfl⟩

/-- C2: resume on a Running coroutine classifies the reply of the
    routine: Yield y is returned as Yield y with the state still
    Running; Complete (Return r) moves the state to Completed Return and
    returns Return r; Complete (Unwind (Panic d)) moves the state to
    Completed Unwind and re-raises the payload d on the invoker. -/
theorem c2_resume_classification {Y R Rx P : Type} :
    (∀ (rest : List (SuspenseType Y R P)) (y : Y) (v : Rx),
        Coroutine.resume (⟨.Running (.Yield y :: rest)⟩ : Coroutine Y R Rx P) v
          = (⟨.Running rest⟩, .ok (.Yield y))) ∧
    (∀ (rest : List (SuspenseType Y R P)) (r : R) (v : Rx),
        Coroutine.resume
            (⟨.Running (.Complete (.Return r) :: rest)⟩ : Coroutine Y R Rx P) v
          = (⟨.Completed .Return⟩, .ok (.Return r))) ∧
    (∀ (rest : List (SuspenseType Y R P)) (d : PanicData P) (v : Rx),
        Coroutine.resume
            (⟨.Running (.Complete (.Unwind (.Panic d)) :: rest)⟩ : Coroutine Y R Rx P) v
          = (⟨.Completed .Unwind⟩, .error d)) :=
  ⟨fun _ _ _ => rfl, fun _ _ _ => rfl, fun _ _ _ => rfl⟩

/-- C3 counterexample: the claim says the destructor accepts exactly the
    reply Unwind Drop and panics on anything else, but the match arm in
    InvocationChannel.unwind (src/coroutines.rs line 459) is
    Complete(Unwind(_)): a reply Complete (Unwind (Panic 7)) is also
    accepted without a panic. -/
theorem c3_counterexample :
    InvocationChannel.unwind
        (SuspenseType.Complete (.Unwind (.Panic (.user 7))) : SuspenseType Nat Nat Nat)
      = .ok () := rfl

/-- C3 amended: on drop of a Running coroutine the invoker sends the
    Drop resume message and verifies that the reply is a completion by
    unwind, Complete (Unwind u) for any reason u (Drop or Panic); a
    Yield reply or a Complete (Return) reply panics with Invalid
    coroutine unwind result. -/
theorem c3_unwind_amended :
    (∀ (Y R P : Type) (u : UnwindReason P),
        InvocationChannel.unwind
            (SuspenseType.Complete (.Unwind u) : SuspenseType Y R P) = .ok ()) ∧
    (∀ (Y R P : Type) (y : Y),
        InvocationChannel.unwind (SuspenseType.Yield y : SuspenseType Y R P)
          = .error (.internalMsg ("Invalid coroutine unwind result"))) ∧
    (∀ (Y R P : Type) (r : R),
        InvocationChannel.unwind
            (SuspenseType.Complete (.Return r) : SuspenseType Y R P)
          = .error (.internalMsg ("Invalid coroutine unwind result"))) ∧
    (∀ (Y R Rx P : Type) (script : List (SuspenseType Y R P))
        (reply : SuspenseType Y R P),
        Coroutine.drop (⟨.Running script⟩ : Coroutine Y R Rx P) reply
          = InvocationChannel.unwind reply) :=
  ⟨fun _ _ _ _ => rfl, fun _ _ _ _ => rfl, fun _ _ _ _ => rfl,
   fun _ _ _ _ _ _ => rfl⟩

/-- C4: a suspension that returns rebinds the send reference from the
    word the switch carried back: a nonzero word w makes the send
    reference point at the container at address w (rebinding the
    existing reference, which requires its old target to be empty, or
    installing a fresh one when it was None); the word zero clears the
    send reference to None; then the own receive slot is drained and its
    content returned, the slot being left empty.  yield_with performs
    the same suspension after its send succeeds. -/
theorem c4_suspend_ref_update {S R : Type}
    (t : ExchangingTransfer S R) (sw : SwitchResult S R) (v : R)
    (hrx : sw.rxAfter = .Value v)
    (href : ∀ a, t.sendRef = some a → sw.peerMem a = .Empty) :
    (t.suspend sw
        = .ok (v, { transferData := sw.data,
                    sendRef := if sw.data ≠ 0 then some sw.data else none,
                    receiveContainer := .Empty })) ∧
    ∀ (pm : Nat → ValueExchangeContainer S) (val : S)
      (pm2 : Nat → ValueExchangeContainer S),
      t.send pm val = .ok pm2 → t.yield_with pm val sw = t.suspend sw := by
  constructor
  · by_cases hw : sw.data = 0
    · simp [ExchangingTransfer.suspend, hw, hrx, ValueExchangeContainer.receive_content]
    · rcases hs : t.sendRef with _ | a
      · simp [ExchangingTransfer.suspend, hw, hs, hrx,
          ValueExchangeContainer.receive_content]
      · simp [ExchangingTransfer.suspend, hw, hs, href a hs, hrx,
          ValueExchangeContainer.receive_content]
  · intro pm val pm2 hsend
    rw [ExchangingTransfer.yield_with, hsend]

/-- C4 witness: a concrete suspension with sendRef None, incoming word 7
    and a full receive slot holding 5 returns 5 and installs the send
    reference at address 7. -/
theorem c4_witness :
    ExchangingTransfer.suspend
        (⟨0, none, ValueExchangeContainer.Empty⟩ : ExchangingTransfer Nat Nat)
        ⟨7, fun _ => ValueExchangeContainer.Empty, ValueExchangeContainer.Value 5⟩
      = .ok (5, ⟨7, some 7, ValueExchangeContainer.Empty⟩) := by
  have h := c4_suspend_ref_update
      (⟨0, none, ValueExchangeContainer.Empty⟩ : ExchangingTransfer Nat Nat)
      ⟨7, fun _ => ValueExchangeContainer.Empty, ValueExchangeContainer.Value 5⟩ 5
      rfl (fun a ha => by cases ha)
  simpa using h.1

/-- C5: when resume on a Running coroutine returns Return r or re-raises
    a panic payload (the script head is Complete (Return r) or
    Complete (Unwind (Panic d))), the handle is completed afterwards and
    every further resume fails with the protocol-violation panic tried
    to send to completed context, without consuming any further reply. -/
theorem c5_completed_resume_fails {Y R Rx P : Type}
    (rec : SuspenseType Y R P) (rest : List (SuspenseType Y R P)) (v : Rx)
    (h : (∃ r, rec = .Complete (.Return r)) ∨
         (∃ d, rec = .Complete (.Unwind (.Panic d)))) :
    (Coroutine.resume (⟨.Running (rec :: rest)⟩ : Coroutine Y R Rx P) v).1.is_completed
        = true ∧
    ∀ v2 : Rx,
      Coroutine.resume
          (Coroutine.resume (⟨.Running (rec :: rest)⟩ : Coroutine Y R Rx P) v).1 v2
        = ((Coroutine.resume (⟨.Running (rec :: rest)⟩ : Coroutine Y R Rx P) v).1,
           .error (.internalMsg ("tried to send to completed context"))) := by
  rcases h with ⟨r, hr⟩ | ⟨d, hd⟩
  · subst hr; exact ⟨rfl, fun _ => rfl⟩
  · subst hd; exact ⟨rfl, fun _ => rfl⟩

/-- C5 witness: a coroutine whose routine immediately returns 3 is
    completed after the first resume and the next resume fails with the
    protocol-violation panic. -/
theorem c5_witness :
    (Coroutine.resume
        (⟨.Running [SuspenseType.Complete (.Return 3)]⟩ : Coroutine Nat Nat Nat Nat)
        0).1.is_completed = true ∧
    Coroutine.resume
        (Coroutine.resume
          (⟨.Running [SuspenseType.Complete (.Return 3)]⟩ : Coroutine Nat Nat Nat Nat)
          0).1 1
      = ((Coroutine.resume
          (⟨.Running [SuspenseType.Complete (.Return 3)]⟩ : Coroutine Nat Nat Nat Nat)
          0).1,
         .error (.internalMsg ("tried to send to completed context"))) := by
  have h := c5_completed_resume_fails
      (SuspenseType.Complete (.Return 3) : SuspenseType Nat Nat Nat)
      ([] : List (SuspenseType Nat Nat Nat)) (0 : Nat) (Or.inl ⟨3, rfl⟩)
  exact ⟨h.1, h.2 1⟩

/-- C6 counterexample: the claim says make_pointer panics on every Empty
    container, but in the canonical transfer layer (src/coroutines.rs
    lines 46-48, src/transfer.rs lines 73-75) make_pointer encodes the
    address with no inspection of the state: on an Empty container at
    address 42 it returns 42 without a panic.  suspend depends on that:
    it passes the pointer of the own, empty, receive slot on every
    switch. -/
theorem c6_counterexample :
    ValueExchangeContainer.make_pointer 42
        (ValueExchangeContainer.Empty : ValueExchangeContainer Nat) = .ok 42 := rfl

/-- C6 amended: only the draft in src/exchange.rs lines 40-46 panics
    when make_pointer is called on an Empty container and returns the
    address on a Full one; the canonical make_pointer of
    src/coroutines.rs and src/transfer.rs returns the address of the
    container in both states. -/
theorem c6_make_pointer_amended :
    (∀ (V : Type) (addr : Nat),
        ExchangeDraft.make_pointer addr
            (ValueExchangeContainer.Empty : ValueExchangeContainer V)
          = .error ("pointer for empty exchange are forbidden")) ∧
    (∀ (V : Type) (addr : Nat) (v : V),
        ExchangeDraft.make_pointer addr (ValueExchangeContainer.Value v) = .ok addr) ∧
    (∀ (V : Type) (addr : Nat) (c : ValueExchangeContainer V),
        ValueExchangeContainer.make_pointer addr c = .ok addr) :=
  ⟨fun _ _ => rfl, fun _ _ _ => rfl, fun _ _ _ => rfl⟩

/-- C7: prepare_exchange v followed by receive_content returns exactly v
    and leaves the container Empty (has_content false); receive_content
    on an Empty container panics. -/
theorem c7_exchange_roundtrip {V : Type} (v : V) :
    (ValueExchangeContainer.prepare_exchange v).receive_content = .ok (v, .Empty) ∧
    (ValueExchangeContainer.Empty : ValueExchangeContainer V).has_content = false ∧
    (ValueExchangeContainer.Empty : ValueExchangeContainer V).receive_content
      = .error ("No content to receive") :=
  ⟨rfl, rfl, rfl⟩

/-- C8: every SelfUpdating cell reachable through the API holds a value:
    update with a normally returning closure op replaces the content t
    by op t, and deref, deref_mut and unwrap observe the present value
    on every reachable cell; when op raises inside update the error
    propagates out of update and no successor cell state exists (the
    raise terminates the computation holding the cell). -/
theorem c8_self_updating_invariant :
    (∀ (T : Type) (t : T) (op : T → Except String T) (t2 : T),
        op t = .ok t2 →
        SelfUpdating.update (⟨some t⟩ : SelfUpdating T) op = .ok ⟨some t2⟩) ∧
    (∀ (T : Type) (c : SelfUpdating T), SelfUpdating.Reachable c →
        ∃ t, c.val = some t ∧ c.deref = .ok t ∧ c.deref_mut = .ok t ∧
          c.unwrap = .ok t) ∧
    (∀ (T : Type) (t : T) (op : T → Except String T) (e : String),
        op t = .error e →
        SelfUpdating.update (⟨some t⟩ : SelfUpdating T) op = .error e) := by
  refine ⟨?_, ?_, ?_⟩
  · intro T t op t2 h
    simp [SelfUpdating.update, h]
  · intro T c hc
    induction hc with
    | of v => exact ⟨v, rfl, rfl, rfl, rfl⟩
    | update c op c2 _ hupd ih =>
      rcases ih with ⟨t, hval, _, _, _⟩
      simp only [SelfUpdating.update, hval] at hupd
      cases hop : op t with
      | error e => rw [hop] at hupd; cases hupd
      | ok t2 =>
        rw [hop] at hupd
        cases hupd
        exact ⟨t2, rfl, rfl, rfl, rfl⟩
  · intro T t op e h
    simp [SelfUpdating.update, h]

/-- C8 witness: updating a cell holding 1 with the successor closure
    yields a cell holding 2; the cell of 3 is observed by deref; an
    update whose closure raises propagates the raise. -/
theorem c8_witness :
    SelfUpdating.update (⟨some 1⟩ : SelfUpdating Nat) (fun n => .ok (n + 1))
        = .ok ⟨some 2⟩ ∧
    (SelfUpdating.of (3 : Nat)).deref = .ok 3 ∧
    SelfUpdating.update (⟨some 1⟩ : SelfUpdating Nat) (fun _ => .error ("boom"))
        = .error ("boom") := by
  refine ⟨c8_self_updating_invariant.1 Nat 1 _ 2 rfl, ?_,
    c8_self_updating_invariant.2.2 Nat 1 _ ("boom") rfl⟩
  obtain ⟨t, ht, hd, _, _⟩ :=
    c8_self_updating_invariant.2.1 Nat _ (SelfUpdating.Reachable.of (3 : Nat))
  have h3 : t = 3 := by simpa [SelfUpdating.of] using ht.symm
  subst h3
  exact hd

/-- C9: when resume on a BoostedGenerator returns None, the return value
    has been cached in the COMPLETED state, and every further resume
    panics with invalid generator state instead of returning None
    again. -/
theorem c9_resume_after_none_panics {Y R Rx P : Type}
    (g g2 : BoostedGenerator Y R Rx P) (v : Rx)
    (h : BoostedGenerator.resume g v = (g2, .ok none)) :
    (∃ r, g2 = ⟨.COMPLETED r⟩) ∧
    ∀ v2 : Rx, BoostedGenerator.resume g2 v2
      = (g2, .error (.internalMsg ("invalid generator state"))) := by
  rcases g with ⟨st⟩
  cases st with
  | COMPLETED r => simp [BoostedGenerator.resume] at h
  | RUNNING co =>
    rcases hco : Coroutine.resume co v with ⟨co2, out⟩
    simp only [BoostedGenerator.resume, hco] at h
    cases out with
    | error e => simp at h
    | ok rr =>
      cases rr with
      | Yield y => simp at h
      | Return r =>
        simp only [Prod.mk.injEq] at h
        refine ⟨⟨r, h.1.symm⟩, fun v2 => ?_⟩
        rw [← h.1]
        rfl

/-- C9 witness: a generator whose routine immediately returns 5 gives
    None on the first resume, caching 5, and the second resume panics
    with invalid generator state. -/
theorem c9_witness :
    (∃ r, (⟨.COMPLETED 5⟩ : BoostedGenerator Nat Nat Nat Nat) = ⟨.COMPLETED r⟩) ∧
    BoostedGenerator.resume (⟨.COMPLETED 5⟩ : BoostedGenerator Nat Nat Nat Nat) 1
      = (⟨.COMPLETED 5⟩, .error (.internalMsg ("invalid generator state"))) := by
  have h := c9_resume_after_none_panics
      (⟨.RUNNING ⟨.Running [SuspenseType.Complete (.Return 5)]⟩⟩ :
        BoostedGenerator Nat Nat Nat Nat)
      (⟨.COMPLETED 5⟩ : BoostedGenerator Nat Nat Nat Nat) 0 rfl
  exact ⟨h.1, h.2 1⟩

/-- C10: dropping a coroutine that was built but never resumed completes
    the drop handshake cleanly: the bootstrap receives the Drop message
    as its first resume value inside the unwind guard, which sets the
    drop flag and raises the control panic; the guard observes the flag
    and disposes with Unwind Drop; the destructor of the invoker accepts
    that reply and returns without raising. -/
theorem c10_drop_before_first_resume {Y R Rx P : Type}
    (routine : Rx → RoutineRun R P) (script : List (SuspenseType Y R P)) :
    @CoroutineChannel.receive Rx P false ResumeType.Drop
        = (true, .error (.internalMsg (""))) ∧
    (run_co_context_disposal routine ResumeType.Drop : SuspenseType Y R P)
        = .Complete (.Unwind .Drop) ∧
    Coroutine.drop (⟨.Running script⟩ : Coroutine Y R Rx P)
        (run_co_context_disposal routine ResumeType.Drop) = .ok () :=
  ⟨rfl, rfl, rfl⟩

end Rusterators
